import Mathlib

/-!
# TrackerEffect (panda/src/pgraph/trackerEffect.{h,cxx})

A shallow embedding of `TrackerEffect`, the render effect that binds a node's
position and orientation to the pose reported by an input device, together
with the properties its specification states.

* Pointers to devices and nodes are natural numbers (addresses); the device a
  pointer designates is looked up in an explicit `Memory`.
* The C++ `int` is an `Int` in the range `INT_MIN .. INT_MAX`; arithmetic that
  can leave that range is reduced by `wrap_int` (two's complement, 32 bits).
* The scalar type of vectors and quaternions is a parameter `α`: the code only
  copies those values, it never computes with them.
-/

namespace Panda

/-! ## Collaborators that live outside the two source files -/

/-- Modelled from the spec: the `Vec3` carried by a pose sample and stored in a
transform (`LPoint3` / `LVecBase3` of luse.h, which is not among the sources). -/
structure LVecBase3 (α : Type) where
  x : α
  y : α
  z : α
deriving DecidableEq, Repr

/-- Modelled from the spec: the `Quat` carried by a pose sample and stored in a
transform (`LQuaternion` / `LOrientation` of luse.h, which is not among the
sources). -/
structure LQuaternion (α : Type) where
  r : α
  i : α
  j : α
  k : α
deriving DecidableEq, Repr

/-- Modelled from the spec: the Transform Value (`TransformState`, whose source
file is not among the sources), "an immutable value type representing a
rigid/affine transform" whose setters return a new value.  It is a record of
its position and orientation components plus the remaining components of an
affine transform (scale and shear), which no operation used here touches. -/
structure TransformState (α : Type) where
  pos : LVecBase3 α
  quat : LQuaternion α
  scale : LVecBase3 α
  shear : LVecBase3 α
deriving DecidableEq, Repr

namespace TransformState

variable {α : Type}

/-- Modelled from the spec: `identity() -> TransformValue`
(`TransformState::make_identity`, not among the sources). -/
def make_identity [Zero α] [One α] : TransformState α :=
  { pos := ⟨0, 0, 0⟩, quat := ⟨1, 0, 0, 0⟩, scale := ⟨1, 1, 1⟩, shear := ⟨0, 0, 0⟩ }

/-- Modelled from the spec: `with_position(Vec3) -> TransformValue`
(`TransformState::set_pos`, not among the sources): a new value in which only
the position component is replaced. -/
def set_pos (self : TransformState α) (pos : LVecBase3 α) : TransformState α :=
  { self with pos := pos }

/-- Modelled from the spec: `with_orientation(Quat) -> TransformValue`
(`TransformState::set_quat`, not among the sources): a new value in which only
the orientation component is replaced. -/
def set_quat (self : TransformState α) (quat : LQuaternion α) : TransformState α :=
  { self with quat := quat }

/-- Modelled from the spec: the position component of a Transform Value
(`TransformState::get_pos`). -/
def get_pos (self : TransformState α) : LVecBase3 α := self.pos

/-- Modelled from the spec: the orientation component of a Transform Value
(`TransformState::get_quat`). -/
def get_quat (self : TransformState α) : LQuaternion α := self.quat

end TransformState

/-- Modelled from the spec: the Pose Sample
`PoseSample{has_position, has_orientation, position, orientation}`
(`TrackerData` of inputDevice.h, which is not among the sources).  The fields
carry the names of the accessors the code calls. -/
structure TrackerData (α : Type) where
  has_pos : Bool
  has_orient : Bool
  get_pos : LVecBase3 α
  get_orient : LQuaternion α
deriving DecidableEq, Repr

/-- Modelled from the spec: the Pose Source, `is_connected() -> bool` and
`current_pose() -> PoseSample` (`InputDevice` of inputDevice.h, which is not
among the sources): the state of one device at the time of a call. -/
structure InputDevice (α : Type) where
  is_connected : Bool
  get_tracker : TrackerData α
deriving DecidableEq, Repr

/-- The devices as they are when a call runs: the object a `const InputDevice *`
designates.  Device pointers held by effects are never null. -/
abbrev Memory (α : Type) := Nat → InputDevice α

/-! ## The C++ `int` -/

/-- Smallest value of a 32-bit `int`. -/
def INT_MIN : Int := -2147483648

/-- Largest value of a 32-bit `int`. -/
def INT_MAX : Int := 2147483647

/-- The values an `int` variable can hold. -/
def is_int (v : Int) : Prop := INT_MIN ≤ v ∧ v ≤ INT_MAX

instance (v : Int) : Decidable (is_int v) := by
  unfold is_int; exact inferInstance

/-- Reduction of a mathematical integer to the `int` with the same residue
modulo 2^32 (what 32-bit two's-complement arithmetic yields). -/
def wrap_int (v : Int) : Int := (v + 2147483648) % 4294967296 - 2147483648

/-- The bit pattern of an `int`, read as an unsigned 32-bit number. -/
def to_unsigned (v : Int) : Nat := (v % 4294967296).toNat

/-- The C++ operator `&` on two `int`s: the bitwise AND of the two 32-bit
two's-complement bit patterns, read back as an `int`. -/
def int_and (a b : Int) : Int :=
  wrap_int (Int.ofNat (Nat.land (to_unsigned a) (to_unsigned b)))

/-! ## trackerEffect.h -/

/-- Enumerator `TA_x` of `enum TrackedAxis`, trackerEffect.h lines 40-47. -/
def TA_x : Int := 0x001
/-- Enumerator `TA_y` of `enum TrackedAxis`. -/
def TA_y : Int := 0x002
/-- Enumerator `TA_z` of `enum TrackedAxis`. -/
def TA_z : Int := 0x004
/-- Enumerator `TA_pos` of `enum TrackedAxis`: the three position bits. -/
def TA_pos : Int := 0x007
/-- Enumerator `TA_orient` of `enum TrackedAxis`. -/
def TA_orient : Int := 0x008
/-- Enumerator `TA_all` of `enum TrackedAxis`. -/
def TA_all : Int := 0x00f

/-- The data members of `class TrackerEffect` (trackerEffect.h lines 75-77):
`CPT(InputDevice) const _device` (a pointer) and `int const _tracked_axes`. -/
structure TrackerEffect where
  _device : Nat
  _tracked_axes : Int
deriving DecidableEq, Repr

/-- What a `const RenderEffect *` can point to: a `TrackerEffect`, or an effect
of some other kind (for which `DCAST` fails). -/
inductive RenderEffect where
  | tracker (ta : TrackerEffect)
  | other_kind
deriving DecidableEq, Repr

namespace TrackerEffect

variable {α : Type}

/-! ## trackerEffect.cxx -/

/-- Embedding of `TrackerEffect::make(const InputDevice *tracker, int tracked_axes)`:
constructs the effect with the indicated properties. -/
def make (tracker : Nat) (tracked_axes : Int := TA_all) : TrackerEffect :=
  { _device := tracker, _tracked_axes := tracked_axes }

/-- Embedding of `TrackerEffect::safe_to_transform`. -/
def safe_to_transform (_self : TrackerEffect) : Bool := false

/-- Embedding of `TrackerEffect::has_cull_callback`. -/
def has_cull_callback (_self : TrackerEffect) : Bool := true

/-- Embedding of `TrackerEffect::has_adjust_transform`. -/
def has_adjust_transform (_self : TrackerEffect) : Bool := true

/-- Embedding of `TrackerEffect::adjust_transform(net_transform, node_transform, node)`,
trackerEffect.cxx lines 94-118.  Both transforms are in/out parameters; the
result is the pair `(net_transform, node_transform)` as they are on return. -/
def adjust_transform (self : TrackerEffect) (mem : Memory α)
    (net_transform node_transform : TransformState α) (_node : Nat) :
    TransformState α × TransformState α :=
  if !(mem self._device).is_connected then
    (net_transform, node_transform)
  else
    let pose := (mem self._device).get_tracker
    let has_pos := pose.has_pos && (int_and self._tracked_axes TA_pos != 0)
    let has_orient := pose.has_orient && (int_and self._tracked_axes TA_orient != 0)
    let node_transform :=
      if has_pos then node_transform.set_pos pose.get_pos else node_transform
    let node_transform :=
      if has_orient then node_transform.set_quat pose.get_orient else node_transform
    (net_transform, node_transform)

/-- Embedding of `TrackerEffect::cull_callback(trav, data, node_transform, node_state)`,
trackerEffect.cxx lines 67-73.  `node` is `data.node()`; the result is the pair
`(node_transform, node_state)` as they are on return. -/
def cull_callback {σ : Type} [Zero α] [One α] (self : TrackerEffect) (mem : Memory α)
    (node : Nat) (node_transform : TransformState α) (node_state : σ) :
    TransformState α × σ :=
  let dummy_transform : TransformState α := TransformState.make_identity
  ((self.adjust_transform mem dummy_transform node_transform node).2, node_state)

/-- Embedding of `TrackerEffect::compare_to_impl(const RenderEffect *other)`,
trackerEffect.cxx lines 132-142.  The subtraction is an `int` subtraction. -/
def compare_to_impl (self : TrackerEffect) (other : RenderEffect) : Int :=
  match other with
  | .other_kind => 0
  | .tracker ta =>
    if self._device ≠ ta._device then
      if self._device < ta._device then -1 else 1
    else
      wrap_int (self._tracked_axes - ta._tracked_axes)

/-! ## The reference result of the specification -/

/-- The node transform the specification prescribes for a connected device
(section 4.2, steps 3 to 6), written after the specification's words:
`apply_position = snapshot.has_position AND (tracked_axes & POSITION) != 0`,
`apply_orientation = snapshot.has_orientation AND (tracked_axes & ORIENTATION) != 0`,
then `with_position` if `apply_position`, followed by `with_orientation` if
`apply_orientation`. -/
def spec_node_transform (snapshot : TrackerData α) (tracked_axes : Int)
    (node_transform : TransformState α) : TransformState α :=
  let apply_position : Bool := snapshot.has_pos && decide (int_and tracked_axes 0x7 ≠ 0)
  let apply_orientation : Bool := snapshot.has_orient && decide (int_and tracked_axes 0x8 ≠ 0)
  let with_position :=
    if apply_position then node_transform.set_pos snapshot.get_pos else node_transform
  if apply_orientation then with_position.set_quat snapshot.get_orient else with_position

/-! ## Sample data -/

/-- A transform with distinctive components. -/
def sample_node : TransformState Int :=
  { pos := ⟨1, 2, 3⟩, quat := ⟨0, 0, 0, 1⟩, scale := ⟨2, 2, 2⟩, shear := ⟨0, 0, 0⟩ }

/-- Another transform, used as the accumulated one. -/
def sample_net : TransformState Int :=
  { pos := ⟨7, 7, 7⟩, quat := ⟨1, 0, 0, 0⟩, scale := ⟨1, 1, 1⟩, shear := ⟨0, 0, 0⟩ }

/-- A pose with the given validity flags, position (4, 5, 6) and orientation
(0, 1, 0, 0). -/
def sample_pose (has_pos has_orient : Bool) : TrackerData Int :=
  { has_pos := has_pos, has_orient := has_orient,
    get_pos := ⟨4, 5, 6⟩, get_orient := ⟨0, 1, 0, 0⟩ }

/-- A memory in which every device has the given connection state and pose. -/
def sample_mem (connected : Bool) (pose : TrackerData Int) : Memory Int :=
  fun _ => { is_connected := connected, get_tracker := pose }

/-! ## Properties of `adjust_transform` -/

/-- C1: if the device reports not connected, `adjust_transform` returns with
both `net_transform` and `node_transform` equal to their values before the
call, for any `tracked_axes` and whatever pose the device holds. -/
theorem adjust_transform_disconnected (self : TrackerEffect) (mem : Memory α)
    (net_transform node_transform : TransformState α) (node : Nat)
    (h : (mem self._device).is_connected = false) :
    self.adjust_transform mem net_transform node_transform node
      = (net_transform, node_transform) := by
  simp [adjust_transform, h]

/-- Witness of C1: a disconnected device holding a fully valid pose, all axes
tracked. -/
theorem adjust_transform_disconnected_witness :
    (sample_mem false (sample_pose true true) (make 3 TA_all)._device).is_connected = false
    ∧ (make 3 TA_all).adjust_transform (sample_mem false (sample_pose true true))
        sample_net sample_node 0 = (sample_net, sample_node) :=
  ⟨by decide, adjust_transform_disconnected (make 3 TA_all) _ sample_net sample_node 0
    (by decide)⟩

/-- C2: for a connected device, `adjust_transform` produces exactly the
reference result of the specification: `net_transform` as it was, and
`node_transform` with the pose's position set iff the pose has a position and
`tracked_axes & 0x7` is not zero, then the pose's orientation set iff the pose
has an orientation and `tracked_axes & 0x8` is not zero. -/
theorem adjust_transform_connected_eq_spec (self : TrackerEffect) (mem : Memory α)
    (net_transform node_transform : TransformState α) (node : Nat)
    (h : (mem self._device).is_connected = true) :
    self.adjust_transform mem net_transform node_transform node
      = (net_transform,
         spec_node_transform (mem self._device).get_tracker self._tracked_axes
           node_transform) := by
  simp [adjust_transform, spec_node_transform, h, TA_pos, TA_orient]

/-- Witness of C2: a connected device with a fully valid pose, mask `0x9`
(the X bit and the orientation bit). -/
theorem adjust_transform_connected_eq_spec_witness :
    (sample_mem true (sample_pose true true) (make 3 9)._device).is_connected = true
    ∧ (make 3 9).adjust_transform (sample_mem true (sample_pose true true))
        sample_net sample_node 0
      = (sample_net,
         spec_node_transform
           (sample_mem true (sample_pose true true) (make 3 9)._device).get_tracker
           (make 3 9)._tracked_axes sample_node) :=
  ⟨by decide, adjust_transform_connected_eq_spec (make 3 9) _ sample_net sample_node 0
    (by decide)⟩

/-- C3: connected device, pose with a position and without an orientation,
`tracked_axes = POSITION`: afterwards the node transform's position is the
pose's position and its orientation is that of the input node transform. -/
theorem adjust_transform_position_only (self : TrackerEffect) (mem : Memory α)
    (net_transform node_transform : TransformState α) (node : Nat)
    (hconn : (mem self._device).is_connected = true)
    (hpos : (mem self._device).get_tracker.has_pos = true)
    (horient : (mem self._device).get_tracker.has_orient = false)
    (haxes : self._tracked_axes = TA_pos) :
    (self.adjust_transform mem net_transform node_transform node).2.get_pos
        = (mem self._device).get_tracker.get_pos
    ∧ (self.adjust_transform mem net_transform node_transform node).2.get_quat
        = node_transform.get_quat := by
  have h7 : int_and TA_pos TA_pos ≠ 0 := by decide
  simp [adjust_transform, hconn, hpos, horient, haxes, h7,
    TransformState.set_pos, TransformState.get_pos, TransformState.get_quat]

/-- Witness of C3. -/
theorem adjust_transform_position_only_witness :
    ((make 3 TA_pos).adjust_transform (sample_mem true (sample_pose true false))
        sample_net sample_node 0).2.get_pos
        = (sample_mem true (sample_pose true false) (make 3 TA_pos)._device).get_tracker.get_pos
    ∧ ((make 3 TA_pos).adjust_transform (sample_mem true (sample_pose true false))
        sample_net sample_node 0).2.get_quat = sample_node.get_quat :=
  adjust_transform_position_only (make 3 TA_pos) (sample_mem true (sample_pose true false))
    sample_net sample_node 0 (by decide) (by decide) (by decide) (by decide)

/-- C4: with `tracked_axes = ORIENTATION` only, for every device state and
every pose (also one with a valid position), the node transform's position
after `adjust_transform` is the position of the input node transform. -/
theorem adjust_transform_orientation_only_keeps_pos (tracker : Nat) (mem : Memory α)
    (net_transform node_transform : TransformState α) (node : Nat) :
    ((make tracker TA_orient).adjust_transform mem net_transform node_transform node).2.get_pos
      = node_transform.get_pos := by
  have h7 : int_and TA_orient TA_pos = 0 := by decide
  have h8 : int_and TA_orient TA_orient ≠ 0 := by decide
  simp only [adjust_transform, make, h7]
  cases (mem tracker).is_connected <;> cases (mem tracker).get_tracker.has_orient <;>
    cases (mem tracker).get_tracker.has_pos <;>
    simp [TransformState.set_quat, TransformState.get_pos, h8]

/-- C5: connected device, pose with both a position and an orientation,
`tracked_axes = ALL_AXES`: afterwards the node transform's position is the
pose's position and its orientation is the pose's orientation. -/
theorem adjust_transform_all_axes (self : TrackerEffect) (mem : Memory α)
    (net_transform node_transform : TransformState α) (node : Nat)
    (hconn : (mem self._device).is_connected = true)
    (hpos : (mem self._device).get_tracker.has_pos = true)
    (horient : (mem self._device).get_tracker.has_orient = true)
    (haxes : self._tracked_axes = TA_all) :
    (self.adjust_transform mem net_transform node_transform node).2.get_pos
        = (mem self._device).get_tracker.get_pos
    ∧ (self.adjust_transform mem net_transform node_transform node).2.get_quat
        = (mem self._device).get_tracker.get_orient := by
  have h7 : int_and TA_all TA_pos ≠ 0 := by decide
  have h8 : int_and TA_all TA_orient ≠ 0 := by decide
  simp [adjust_transform, hconn, hpos, horient, haxes, h7, h8,
    TransformState.set_pos, TransformState.set_quat, TransformState.get_pos,
    TransformState.get_quat]

/-- Witness of C5. -/
theorem adjust_transform_all_axes_witness :
    ((make 3 TA_all).adjust_transform (sample_mem true (sample_pose true true))
        sample_net sample_node 0).2.get_pos
        = (sample_mem true (sample_pose true true) (make 3 TA_all)._device).get_tracker.get_pos
    ∧ ((make 3 TA_all).adjust_transform (sample_mem true (sample_pose true true))
        sample_net sample_node 0).2.get_quat
        = (sample_mem true (sample_pose true true) (make 3 TA_all)._device).get_tracker.get_orient :=
  adjust_transform_all_axes (make 3 TA_all) (sample_mem true (sample_pose true true))
    sample_net sample_node 0 (by decide) (by decide) (by decide) (by decide)

/-- C6: for every effect, device state, pose and pair of input transforms,
`adjust_transform` leaves `net_transform` equal to its value before the call. -/
theorem adjust_transform_net_unchanged (self : TrackerEffect) (mem : Memory α)
    (net_transform node_transform : TransformState α) (node : Nat) :
    (self.adjust_transform mem net_transform node_transform node).1 = net_transform := by
  unfold adjust_transform
  split <;> rfl

/-! ## Properties of `compare_to_impl` -/

/-- An `int` that is already in range is left as it is by `wrap_int`. -/
theorem wrap_int_of_is_int (v : Int) (h : is_int v) : wrap_int v = v := by
  unfold is_int INT_MIN INT_MAX at h
  unfold wrap_int
  omega

/-- C7: evaluation of `compare_to_impl` at two effects on one device with the
masks `0x7fffffff` and `-1` (both valid `int`s): the `int` subtraction
overflows, and each effect compares as less than the other, so the sign of
`compare(a, b)` is not the opposite of the sign of `compare(b, a)`. -/
theorem compare_to_impl_both_less :
    is_int 2147483647 ∧ is_int (-1)
    ∧ (make 3 2147483647).compare_to_impl (.tracker (make 3 (-1))) = -2147483648
    ∧ (make 3 (-1)).compare_to_impl (.tracker (make 3 2147483647)) = -2147483648
    ∧ (make 3 2147483647).compare_to_impl (.tracker (make 3 (-1))) < 0
    ∧ ¬ (make 3 (-1)).compare_to_impl (.tracker (make 3 2147483647)) > 0 := by
  decide

/-- C8: evaluation of `compare_to_impl` at three effects on one device with
the masks `0x7fffffff`, `-1` and `0` (all valid `int`s): the first compares as
less than the second because the `int` subtraction overflows, the second as
less than the third, and yet the first compares as greater than the third, so
the comparison is not transitive. -/
theorem compare_to_impl_cycle :
    is_int 2147483647 ∧ is_int (-1) ∧ is_int 0
    ∧ (make 3 2147483647).compare_to_impl (.tracker (make 3 (-1))) ≤ 0
    ∧ (make 3 (-1)).compare_to_impl (.tracker (make 3 0)) ≤ 0
    ∧ ¬ (make 3 2147483647).compare_to_impl (.tracker (make 3 0)) ≤ 0 := by
  decide

/-- C9, as stated, fails: for two effects on one device with the valid `int`
masks `0x7fffffff` and `-1`, `compare_to_impl` is not the numeric difference
`2147483648` of the masks (no `int` has that value), and it is negative
although the first mask is not the smaller one. -/
theorem compare_to_impl_ne_difference :
    is_int 2147483647 ∧ is_int (-1)
    ∧ (make 3 2147483647)._device = (make 3 (-1))._device
    ∧ (make 3 2147483647).compare_to_impl (.tracker (make 3 (-1)))
        ≠ (make 3 2147483647)._tracked_axes - (make 3 (-1))._tracked_axes
    ∧ (make 3 2147483647).compare_to_impl (.tracker (make 3 (-1))) < 0
    ∧ ¬ (make 3 2147483647)._tracked_axes < (make 3 (-1))._tracked_axes := by
  decide

/-- C9, amended: for two effects bound to the same device whose masks have a
difference that is itself an `int`, `compare_to_impl` is the signed numeric
difference of the masks, hence negative exactly when the first mask is
numerically smaller. -/
theorem compare_to_impl_same_device (a b : TrackerEffect)
    (hdev : a._device = b._device)
    (hdiff : is_int (a._tracked_axes - b._tracked_axes)) :
    a.compare_to_impl (.tracker b) = a._tracked_axes - b._tracked_axes
    ∧ (a.compare_to_impl (.tracker b) < 0 ↔ a._tracked_axes < b._tracked_axes) := by
  have hval : a.compare_to_impl (.tracker b) = a._tracked_axes - b._tracked_axes := by
    simp [compare_to_impl, hdev, wrap_int_of_is_int _ hdiff]
  refine ⟨hval, ?_⟩
  rw [hval]
  omega

/-- Witness of C9, amended: the masks `0x7` and `0x8` on one device compare as
`-1`. -/
theorem compare_to_impl_same_device_witness :
    (make 3 TA_pos).compare_to_impl (.tracker (make 3 TA_orient)) = -1
    ∧ ((make 3 TA_pos).compare_to_impl (.tracker (make 3 TA_orient))
        = (make 3 TA_pos)._tracked_axes - (make 3 TA_orient)._tracked_axes
      ∧ ((make 3 TA_pos).compare_to_impl (.tracker (make 3 TA_orient)) < 0
        ↔ (make 3 TA_pos)._tracked_axes < (make 3 TA_orient)._tracked_axes)) :=
  ⟨by decide,
   compare_to_impl_same_device (make 3 TA_pos) (make 3 TA_orient) (by decide) (by decide)⟩

/-- C10: two effects with the same device and the same `tracked_axes` compare
as equal (0), and every effect compares as equal to itself. -/
theorem compare_to_impl_same_fields (a b : TrackerEffect)
    (hdev : a._device = b._device) (haxes : a._tracked_axes = b._tracked_axes) :
    a.compare_to_impl (.tracker b) = 0 ∧ a.compare_to_impl (.tracker a) = 0 := by
  simp [compare_to_impl, hdev, haxes, wrap_int]

/-- Witness of C10: two effects made separately from the same device and the
same mask. -/
theorem compare_to_impl_same_fields_witness :
    (make 3 TA_pos).compare_to_impl (.tracker (make (1 + 2) 0x7)) = 0
    ∧ (make 3 TA_pos).compare_to_impl (.tracker (make 3 TA_pos)) = 0 :=
  compare_to_impl_same_fields (make 3 TA_pos) (make (1 + 2) 0x7) (by decide) (by decide)

/-! ## The capability predicates -/

/-- C11: `safe_to_transform` returns false for every tracking effect, whatever
its device and its `tracked_axes`; it reads neither the device nor its
connection state. -/
theorem safe_to_transform_eq_false (tracker : Nat) (tracked_axes : Int) :
    (make tracker tracked_axes).safe_to_transform = false ∧
    ∀ self : TrackerEffect, self.safe_to_transform = false :=
  ⟨rfl, fun _ => rfl⟩

/-! ## The cull hook -/

/-- The node transform left by `adjust_transform` does not depend on the net
transform passed in. -/
theorem adjust_transform_node_indep_net (self : TrackerEffect) (mem : Memory α)
    (net₁ net₂ node_transform : TransformState α) (node : Nat) :
    (self.adjust_transform mem net₁ node_transform node).2
      = (self.adjust_transform mem net₂ node_transform node).2 := by
  unfold adjust_transform
  split <;> rfl

/-- C12: `cull_callback` is an adapter over `adjust_transform`: the node
transform it leaves is the one `adjust_transform` leaves when called with an
identity net transform and the same node transform, it leaves `node_state`
unchanged, and the throwaway net transform is not observable: any other net
transform would give the same node transform. -/
theorem cull_callback_eq_adjust_transform {σ : Type} [Zero α] [One α]
    (self : TrackerEffect) (mem : Memory α) (node : Nat)
    (node_transform : TransformState α) (node_state : σ) :
    (self.cull_callback mem node node_transform node_state).1
        = (self.adjust_transform mem TransformState.make_identity node_transform node).2
    ∧ (self.cull_callback mem node node_transform node_state).2 = node_state
    ∧ ∀ net_transform : TransformState α,
        (self.cull_callback mem node node_transform node_state).1
          = (self.adjust_transform mem net_transform node_transform node).2 := by
  refine ⟨rfl, rfl, fun net_transform => ?_⟩
  exact adjust_transform_node_indep_net self mem _ net_transform node_transform node

/-! ## Bits of `tracked_axes` -/

/-- The bit pattern of a non-negative `int` given as a natural number. -/
theorem to_unsigned_ofNat (c : Nat) (hc : c < 4294967296) :
    to_unsigned (Int.ofNat c) = c := by
  unfold to_unsigned
  simp only [Int.ofNat_eq_coe]
  omega

/-- AND with a non-negative `int` constant is the AND of the bit patterns. -/
theorem int_and_ofNat (m : Int) (c : Nat) (hc : c ≤ 2147483647) :
    int_and m (Int.ofNat c) = Int.ofNat (Nat.land (to_unsigned m) c) := by
  unfold int_and
  rw [to_unsigned_ofNat c (by omega)]
  apply wrap_int_of_is_int
  have hle : Nat.land (to_unsigned m) c ≤ c := Nat.and_le_right
  unfold is_int INT_MIN INT_MAX
  simp only [Int.ofNat_eq_coe]
  omega

/-- Two successive ANDs with non-negative constants are one AND with the AND
of the constants. -/
theorem int_and_int_and_ofNat (m : Int) (c d : Nat) (hc : c ≤ 2147483647)
    (hd : d ≤ 2147483647) :
    int_and (int_and m (Int.ofNat c)) (Int.ofNat d)
      = int_and m (Int.ofNat (Nat.land c d)) := by
  have hcd : Nat.land c d ≤ 2147483647 := Nat.le_trans Nat.and_le_right hd
  have hle : Nat.land (to_unsigned m) c ≤ c := Nat.and_le_right
  rw [int_and_ofNat m c hc, int_and_ofNat _ d hd, int_and_ofNat m _ hcd,
    to_unsigned_ofNat _ (by omega)]
  congr 1
  exact Nat.and_assoc _ _ _

/-- Masking with `TA_all` first does not change the position bits. -/
theorem int_and_all_pos (m : Int) :
    int_and (int_and m TA_all) TA_pos = int_and m TA_pos :=
  int_and_int_and_ofNat m 15 7 (by decide) (by decide)

/-- Masking with `TA_all` first does not change the orientation bit. -/
theorem int_and_all_orient (m : Int) :
    int_and (int_and m TA_all) TA_orient = int_and m TA_orient :=
  int_and_int_and_ofNat m 15 8 (by decide) (by decide)

/-- C13: bits of `tracked_axes` outside `0xf` are inert: for every mask `m`,
device state, pose and input transforms, `adjust_transform` on an effect with
`tracked_axes = m` yields the same net and node transforms as on an effect
with the same device and `tracked_axes = m & 0xf`. -/
theorem adjust_transform_mask_all (tracker : Nat) (m : Int) (mem : Memory α)
    (net_transform node_transform : TransformState α) (node : Nat) :
    (make tracker m).adjust_transform mem net_transform node_transform node
      = (make tracker (int_and m TA_all)).adjust_transform mem net_transform
          node_transform node := by
  simp only [adjust_transform, make, int_and_all_pos, int_and_all_orient]

/-! ## Re-invocation -/

/-- C14: with the same device reading, applying `adjust_transform` to its own
result gives that result again, and so does `cull_callback`. -/
theorem adjust_transform_idempotent {σ : Type} [Zero α] [One α]
    (self : TrackerEffect) (mem : Memory α)
    (net_transform node_transform : TransformState α) (node : Nat) (node_state : σ) :
    self.adjust_transform mem
        (self.adjust_transform mem net_transform node_transform node).1
        (self.adjust_transform mem net_transform node_transform node).2 node
      = self.adjust_transform mem net_transform node_transform node
    ∧ self.cull_callback mem node
        (self.cull_callback mem node node_transform node_state).1
        (self.cull_callback mem node node_transform node_state).2
      = self.cull_callback mem node node_transform node_state := by
  simp only [cull_callback, adjust_transform]
  cases (mem self._device).is_connected <;>
    cases (mem self._device).get_tracker.has_pos <;>
    cases (mem self._device).get_tracker.has_orient <;>
    by_cases h7 : int_and self._tracked_axes TA_pos = 0 <;>
    by_cases h8 : int_and self._tracked_axes TA_orient = 0 <;>
    simp [h7, h8, TransformState.set_pos, TransformState.set_quat]

/-! ## What `compare_to_impl` distinguishes -/

/-- C15: for two effects whose masks are `int`s, `compare_to_impl` is 0 if and
only if they have the same device and the same `tracked_axes`; when the
devices differ, the result is -1 or 1 as the device order alone decides,
whatever the masks. -/
theorem compare_to_impl_eq_zero_iff (a b : TrackerEffect)
    (ha : is_int a._tracked_axes) (hb : is_int b._tracked_axes) :
    (a.compare_to_impl (.tracker b) = 0
        ↔ a._device = b._device ∧ a._tracked_axes = b._tracked_axes)
    ∧ (a._device ≠ b._device →
        a.compare_to_impl (.tracker b) = if a._device < b._device then -1 else 1) := by
  unfold is_int INT_MIN INT_MAX at ha hb
  constructor
  · by_cases hdev : a._device = b._device
    · simp only [compare_to_impl, hdev, ne_eq, not_true_eq_false, if_false, true_and,
        wrap_int]
      omega
    · simp only [compare_to_impl, ne_eq, hdev, not_false_eq_true, if_true, false_and,
        iff_false]
      split <;> decide
  · intro hdev
    simp [compare_to_impl, hdev]

/-- Witness of C15: two effects on different devices, the one on the lower
device with the larger mask. -/
theorem compare_to_impl_eq_zero_iff_witness :
    (make 3 TA_all).compare_to_impl (.tracker (make 5 TA_x)) = -1
    ∧ ((make 3 TA_all).compare_to_impl (.tracker (make 5 TA_x)) = 0
        ↔ (make 3 TA_all)._device = (make 5 TA_x)._device
          ∧ (make 3 TA_all)._tracked_axes = (make 5 TA_x)._tracked_axes)
    ∧ ((make 3 TA_all)._device ≠ (make 5 TA_x)._device →
        (make 3 TA_all).compare_to_impl (.tracker (make 5 TA_x))
          = if (make 3 TA_all)._device < (make 5 TA_x)._device then -1 else 1) :=
  ⟨by decide,
   compare_to_impl_eq_zero_iff (make 3 TA_all) (make 5 TA_x) (by decide) (by decide)⟩

/-! ## Which rewrites a connected device causes -/

/-- C16: the position bits are not honoured one by one: for a connected
device whose pose has a position and a mask with at least one of the X, Y, Z
bits set, `adjust_transform` sets the node transform's position to the pose's
whole position, the same position an effect with `tracked_axes = POSITION`
on that device gives. -/
theorem adjust_transform_any_position_bit (tracker : Nat) (m : Int) (mem : Memory α)
    (net_transform node_transform : TransformState α) (node : Nat)
    (hconn : (mem tracker).is_connected = true)
    (hpos : (mem tracker).get_tracker.has_pos = true)
    (hbits : int_and m TA_pos ≠ 0) :
    ((make tracker m).adjust_transform mem net_transform node_transform node).2.get_pos
        = (mem tracker).get_tracker.get_pos
    ∧ ((make tracker m).adjust_transform mem net_transform node_transform node).2.get_pos
        = ((make tracker TA_pos).adjust_transform mem net_transform node_transform
            node).2.get_pos := by
  have h7 : int_and TA_pos TA_pos ≠ 0 := by decide
  have h8 : int_and TA_pos TA_orient = 0 := by decide
  have h0 : ((0 : Int) != 0) = false := by decide
  simp only [adjust_transform, make, hconn, hpos, h8, h0, Bool.not_true,
    Bool.false_eq_true, if_false, Bool.true_and, bne_iff_ne, ne_eq, hbits, h7,
    not_false_eq_true, if_true, Bool.and_false]
  constructor
  · split <;> rfl
  · split <;> rfl

/-- Witness of C16: the mask `TA_x` alone replaces all three components of the
position (1, 2, 3) by the pose's (4, 5, 6). -/
theorem adjust_transform_any_position_bit_witness :
    ((make 3 TA_x).adjust_transform (sample_mem true (sample_pose true true))
        sample_net sample_node 0).2.get_pos = ⟨4, 5, 6⟩
    ∧ (((make 3 TA_x).adjust_transform (sample_mem true (sample_pose true true))
        sample_net sample_node 0).2.get_pos
        = (sample_mem true (sample_pose true true) 3).get_tracker.get_pos
      ∧ ((make 3 TA_x).adjust_transform (sample_mem true (sample_pose true true))
        sample_net sample_node 0).2.get_pos
        = ((make 3 TA_pos).adjust_transform (sample_mem true (sample_pose true true))
            sample_net sample_node 0).2.get_pos) :=
  ⟨by decide,
   adjust_transform_any_position_bit 3 TA_x (sample_mem true (sample_pose true true))
    sample_net sample_node 0 (by decide) (by decide) (by decide)⟩

/-- C17: a connected device does not by itself cause a rewrite: if neither
component applies (the pose has no position or `tracked_axes & 0x7` is zero,
and the pose has no orientation or `tracked_axes & 0x8` is zero),
`adjust_transform` leaves `node_transform` equal to its value before the call. -/
theorem adjust_transform_connected_nothing_applies (self : TrackerEffect)
    (mem : Memory α) (net_transform node_transform : TransformState α) (node : Nat)
    (hconn : (mem self._device).is_connected = true)
    (hpos : (mem self._device).get_tracker.has_pos = false
      ∨ int_and self._tracked_axes 0x7 = 0)
    (horient : (mem self._device).get_tracker.has_orient = false
      ∨ int_and self._tracked_axes 0x8 = 0) :
    (self.adjust_transform mem net_transform node_transform node).2 = node_transform := by
  simp only [adjust_transform, hconn, TA_pos, TA_orient]
  rcases hpos with hpos | hpos <;> rcases horient with horient | horient <;>
    simp [hpos, horient]

/-- Witness of C17: a connected device whose pose has an orientation only, and
an effect that tracks the position only. -/
theorem adjust_transform_connected_nothing_applies_witness :
    ((make 3 TA_pos).adjust_transform (sample_mem true (sample_pose false true))
        sample_net sample_node 0).2 = sample_node :=
  adjust_transform_connected_nothing_applies (make 3 TA_pos)
    (sample_mem true (sample_pose false true)) sample_net sample_node 0
    (by decide) (Or.inl (by decide)) (Or.inr (by decide))

/-- C18: `has_cull_callback` and `has_adjust_transform` both return true for
every tracking effect; they read neither the device, its connection state or
pose, nor `tracked_axes`. -/
theorem has_cull_callback_and_has_adjust_transform (tracker : Nat) (tracked_axes : Int) :
    ((make tracker tracked_axes).has_cull_callback = true
      ∧ (make tracker tracked_axes).has_adjust_transform = true)
    ∧ ∀ self : TrackerEffect,
        self.has_cull_callback = true ∧ self.has_adjust_transform = true :=
  ⟨⟨rfl, rfl⟩, fun _ => ⟨rfl, rfl⟩⟩

end TrackerEffect

end Panda
